import Mathlib

/-!
Shallow embedding of the `codelytics` metrics-aggregation engine
(`cdl.Dir(path).stats()`), the pipeline that classifies the files of a
project directory, runs per-file extractors, and reduces the per-file
samples into one flat project record of totals, means and medians.

The repository ships only the driver notebook `play.ipynb`, which calls
`cdl.Dir(project).stats()` and records the resulting 92-field record; the
package module itself is not part of the sources.  The definitions below
are therefore modelled from the specification (file classifier, extractor
contracts, aggregation rule, error taxonomy), with the field schema taken
from the record printed in `play.ipynb`.  The external collaborators
(radon, complexipy, the spell checker, nbformat, git) are out of scope by
the specification's own design: a file's per-function and per-unit metric
values appear here as the data carried by a parsed file, and the engine is
everything that happens from classification to the final record.
-/

namespace Codelytics

/-- Modelled from the spec: the per-unit lexical metrics (§4.3) returned by
the text-metric extractor for one comment, one docstring or one markdown
cell: word count, character count, non-ASCII character count, sentence
count, misspelled-word count, and (used for comments only) whether the
comment is classified as "why" or "what". -/
structure TextUnit where
  words : ℚ
  chars : ℚ
  non_ascii : ℚ
  sentences : ℚ
  misspelled : ℚ
  why_or_what : Bool
deriving DecidableEq

/-- Modelled from the spec: one identifier appearance in a file (§4.4),
with its character length and the boolean classification flags
(snake_case, camelCase, PascalCase, leading-underscore "private",
ends-with-number, "simple", pure-ASCII). -/
structure Ident where
  chars : ℚ
  snake_case : Bool
  camel_case : Bool
  pascal_case : Bool
  private_name : Bool
  endswith_number : Bool
  simple : Bool
  ascii : Bool
deriving DecidableEq

/-- Modelled from the spec: the extraction result for one syntactically
valid `.py` file or one notebook code cell treated as a mini-file (§4.2,
§4.5): the collaborator line-category counts, this engine's own logical
line count, character count, entity counts, the per-function
cyclomatic/cognitive/Halstead sample lists, and the lists of comment
units, docstring units and identifier appearances found in it. -/
structure PyContent where
  radon_loc : ℚ
  radon_lloc : ℚ
  radon_sloc : ℚ
  radon_comments : ℚ
  radon_multi : ℚ
  radon_blank : ℚ
  lloc : ℚ
  n_char : ℚ
  n_functions : ℚ
  n_classes : ℚ
  n_imports : ℚ
  n_imported_modules : ℚ
  mccabe : List ℚ
  cognitive : List ℚ
  halstead_vocabulary : List ℚ
  halstead_length : List ℚ
  halstead_volume : List ℚ
  halstead_difficulty : List ℚ
  halstead_effort : List ℚ
  comments : List TextUnit
  docstrings : List TextUnit
  names : List Ident
deriving DecidableEq

/-- Modelled from the spec: one discovered `.py` file (§4.1); `parse` is
`none` exactly when the syntax-level parse fails, in which case the file
is still counted but contributes no extraction samples (§4.2 contract). -/
structure PyFile where
  parse : Option PyContent
deriving DecidableEq

/-- Modelled from the spec: one notebook cell (§4.5): a code cell (whose
source is parsed like a mini `.py` file, `none` when unparsable), a
markdown cell carrying its text-unit metrics, or a cell of any other
kind. -/
inductive Cell where
  | code (parse : Option PyContent)
  | markdown (text : TextUnit)
  | other
deriving DecidableEq

/-- Modelled from the spec: one discovered `.ipynb` file (§4.1, §4.5);
`parse` is `none` exactly when the structural parse fails, in which case
the notebook is counted but contributes no cells. -/
structure Notebook where
  parse : Option (List Cell)
deriving DecidableEq

/-- Modelled from the spec: the classified content of one project
directory (§4.1): its `.py` files, its `.ipynb` files, the counts of
markdown and other files (these are only counted, never extracted from),
and the repository metadata read by §4.6 (`is_repo = False`, `n_commits =
0` for a non-repository directory). -/
structure Dir where
  py_files : List PyFile
  ipynb_files : List Notebook
  n_md : ℕ
  n_other : ℕ
  is_repo : Bool
  n_commits : ℕ
deriving DecidableEq

/-- Modelled from the spec: the directory containing zero files; with no
files at all there is no repository metadata either (§4.6: repository-ness
is the presence of repository metadata), so `is_repo` is `false` and
`n_commits` is `0`. -/
def Dir.empty : Dir :=
  { py_files := [], ipynb_files := [], n_md := 0, n_other := 0,
    is_repo := false, n_commits := 0 }

/-- Modelled from the spec: the aggregation rule's `_total` reduction
(§3): the sum across all samples. -/
def total (xs : List ℚ) : ℚ := xs.sum

/-- Modelled from the spec: the aggregation rule's `_mean` reduction
(§3): the arithmetic mean across samples, `0` when the sample sequence is
empty. -/
def mean (xs : List ℚ) : ℚ := if xs.length = 0 then 0 else xs.sum / xs.length

/-- Modelled from the spec: the aggregation rule's `_median` reduction
(§3): the statistical median (sort; middle element for odd length, average
of the two middle elements for even length), `0` when the sample sequence
is empty. -/
def median (xs : List ℚ) : ℚ :=
  let s := List.insertionSort (· ≤ ·) xs
  if s.length = 0 then 0
  else if s.length % 2 = 1 then s.getD (s.length / 2) 0
  else (s.getD (s.length / 2 - 1) 0 + s.getD (s.length / 2) 0) / 2

/-- Modelled from the spec: a per-file naming-convention ratio (§4.4): the
fraction of the file's identifiers satisfying the flag, with denominator
the identifier count; a file with zero identifiers yields ratio `0`, not a
division-by-zero failure. -/
def ratioOf (flag : Ident → Bool) (ids : List Ident) : ℚ :=
  if ids.length = 0 then 0 else ((ids.filter flag).length : ℚ) / (ids.length : ℚ)

/-- The parsed content of a code cell, `none` for markdown/other cells. -/
def Cell.content : Cell → Option PyContent
  | .code p => p
  | _ => none

/-- The text unit of a markdown cell, `none` for code/other cells. -/
def Cell.markdownText : Cell → Option TextUnit
  | .markdown t => some t
  | _ => none

/-- Whether the cell is a code cell. -/
def Cell.isCode : Cell → Bool
  | .code _ => true
  | _ => false

/-- Whether the cell is a markdown cell. -/
def Cell.isMarkdown : Cell → Bool
  | .markdown _ => true
  | _ => false

/-- Modelled from the spec: all cells of the project's parseable
notebooks, in discovery order (§4.5). -/
def Dir.cells (d : Dir) : List Cell :=
  (d.ipynb_files.filterMap Notebook.parse).flatten

/-- Modelled from the spec: the pool of parsed Python units of the whole
project (§4.2, §4.5): every syntactically valid `.py` file followed by
every parseable code cell, each treated as an independent mini-file whose
samples feed the same project-level pools. -/
def Dir.py_contents (d : Dir) : List PyContent :=
  d.py_files.filterMap PyFile.parse ++ d.cells.filterMap Cell.content

/-- The text units of all markdown cells of the project (§4.5). -/
def Dir.markdown_cells (d : Dir) : List TextUnit :=
  d.cells.filterMap Cell.markdownText

/-- All comment units of the project, pooled across files and cells. -/
def Dir.all_comments (d : Dir) : List TextUnit :=
  d.py_contents.flatMap PyContent.comments

/-- All docstring units of the project, pooled across files and cells. -/
def Dir.all_docstrings (d : Dir) : List TextUnit :=
  d.py_contents.flatMap PyContent.docstrings

/-- All identifier appearances of the project, pooled across files and
cells. -/
def Dir.all_names (d : Dir) : List Ident :=
  d.py_contents.flatMap PyContent.names

/-- Per-function cyclomatic-complexity samples pooled across the
project. -/
def Dir.mccabe_samples (d : Dir) : List ℚ :=
  d.py_contents.flatMap PyContent.mccabe

/-- Per-function cognitive-complexity samples pooled across the
project. -/
def Dir.cognitive_samples (d : Dir) : List ℚ :=
  d.py_contents.flatMap PyContent.cognitive

/-- Per-function Halstead vocabulary samples pooled across the project. -/
def Dir.halstead_vocabulary_samples (d : Dir) : List ℚ :=
  d.py_contents.flatMap PyContent.halstead_vocabulary

/-- Per-function Halstead length samples pooled across the project. -/
def Dir.halstead_length_samples (d : Dir) : List ℚ :=
  d.py_contents.flatMap PyContent.halstead_length

/-- Per-function Halstead volume samples pooled across the project. -/
def Dir.halstead_volume_samples (d : Dir) : List ℚ :=
  d.py_contents.flatMap PyContent.halstead_volume

/-- Per-function Halstead difficulty samples pooled across the project. -/
def Dir.halstead_difficulty_samples (d : Dir) : List ℚ :=
  d.py_contents.flatMap PyContent.halstead_difficulty

/-- Per-function Halstead effort samples pooled across the project. -/
def Dir.halstead_effort_samples (d : Dir) : List ℚ :=
  d.py_contents.flatMap PyContent.halstead_effort

/-- The why-or-what indicator samples of all comments: `1` for a comment
classified as "why" or "what", `0` for a comment classified as neither. -/
def Dir.why_or_what_samples (d : Dir) : List ℚ :=
  d.all_comments.map (fun c => if c.why_or_what then (1 : ℚ) else 0)

/-- Modelled from the spec: the flat ProjectRecord (§3, §6) with the fixed
field schema recorded by the driver notebook's printed output — one
boolean `is_repo` field and 91 numeric fields, 92 fields in all. -/
structure Stats where
  is_repo : Bool
  n_commits : ℚ
  n_files_total : ℚ
  n_files_py : ℚ
  n_files_ipynb : ℚ
  n_files_md : ℚ
  radon_loc : ℚ
  radon_lloc : ℚ
  radon_sloc : ℚ
  radon_comments : ℚ
  radon_multi : ℚ
  radon_blank : ℚ
  lloc : ℚ
  n_char : ℚ
  n_functions : ℚ
  n_classes : ℚ
  n_imports : ℚ
  n_imported_modules : ℚ
  mccabe_total : ℚ
  mccabe_mean : ℚ
  mccabe_median : ℚ
  cognitive_total : ℚ
  cognitive_mean : ℚ
  cognitive_median : ℚ
  halstead_vocabulary_total : ℚ
  halstead_vocabulary_mean : ℚ
  halstead_vocabulary_median : ℚ
  halstead_length_total : ℚ
  halstead_length_mean : ℚ
  halstead_length_median : ℚ
  halstead_volume_total : ℚ
  halstead_volume_mean : ℚ
  halstead_volume_median : ℚ
  halstead_difficulty_total : ℚ
  halstead_difficulty_mean : ℚ
  halstead_difficulty_median : ℚ
  halstead_effort_total : ℚ
  halstead_effort_mean : ℚ
  halstead_effort_median : ℚ
  comments_count : ℚ
  comments_words_total : ℚ
  comments_words_mean : ℚ
  comments_words_median : ℚ
  comments_chars_total : ℚ
  comments_chars_mean : ℚ
  comments_chars_median : ℚ
  comments_non_ascii_total : ℚ
  comments_non_ascii_mean : ℚ
  comments_non_ascii_median : ℚ
  comments_sentences_total : ℚ
  comments_sentences_mean : ℚ
  comments_sentences_median : ℚ
  comments_misspelled_total : ℚ
  comments_misspelled_mean : ℚ
  comments_misspelled_median : ℚ
  comments_why_or_what_total : ℚ
  comments_why_or_what_mean : ℚ
  comments_why_or_what_median : ℚ
  docstrings_count : ℚ
  docstrings_words_total : ℚ
  docstrings_words_mean : ℚ
  docstrings_words_median : ℚ
  docstrings_chars_total : ℚ
  docstrings_chars_mean : ℚ
  docstrings_chars_median : ℚ
  docstrings_non_ascii_total : ℚ
  docstrings_non_ascii_mean : ℚ
  docstrings_non_ascii_median : ℚ
  docstrings_sentences_total : ℚ
  docstrings_sentences_mean : ℚ
  docstrings_sentences_median : ℚ
  docstrings_misspelled_total : ℚ
  docstrings_misspelled_mean : ℚ
  docstrings_misspelled_median : ℚ
  names_count : ℚ
  names_chars_total : ℚ
  names_chars_mean : ℚ
  names_chars_median : ℚ
  names_camel_case_ratio : ℚ
  names_snake_case_ratio : ℚ
  names_pascal_case_ratio : ℚ
  names_private_ratio : ℚ
  names_endswith_number_ratio : ℚ
  names_simple_ratio : ℚ
  names_ascii_ratio : ℚ
  n_cells_total : ℚ
  n_cells_code : ℚ
  n_cells_markdown : ℚ
  markdown_words_total : ℚ
  markdown_chars_total : ℚ
  markdown_sentences_total : ℚ
  markdown_misspelled_total : ℚ
deriving DecidableEq

/-- Modelled from the spec: the full pipeline on one classified directory
(§2, §4.7): pool the per-file and per-cell samples, reduce every
sample-based metric with the total/mean/median rule, sum the plain
file-level scalars, compute the identifier-classification ratios over the
project's identifier pool, count cells by kind, sum the markdown-cell
text metrics, and attach the repository metadata. -/
def Dir.stats (d : Dir) : Stats :=
  { is_repo := d.is_repo
    n_commits := (d.n_commits : ℚ)
    n_files_total :=
      ((d.py_files.length + d.ipynb_files.length + d.n_md + d.n_other : ℕ) : ℚ)
    n_files_py := (d.py_files.length : ℚ)
    n_files_ipynb := (d.ipynb_files.length : ℚ)
    n_files_md := (d.n_md : ℚ)
    radon_loc := total (d.py_contents.map PyContent.radon_loc)
    radon_lloc := total (d.py_contents.map PyContent.radon_lloc)
    radon_sloc := total (d.py_contents.map PyContent.radon_sloc)
    radon_comments := total (d.py_contents.map PyContent.radon_comments)
    radon_multi := total (d.py_contents.map PyContent.radon_multi)
    radon_blank := total (d.py_contents.map PyContent.radon_blank)
    lloc := total (d.py_contents.map PyContent.lloc)
    n_char := total (d.py_contents.map PyContent.n_char)
    n_functions := total (d.py_contents.map PyContent.n_functions)
    n_classes := total (d.py_contents.map PyContent.n_classes)
    n_imports := total (d.py_contents.map PyContent.n_imports)
    n_imported_modules := total (d.py_contents.map PyContent.n_imported_modules)
    mccabe_total := total d.mccabe_samples
    mccabe_mean := mean d.mccabe_samples
    mccabe_median := median d.mccabe_samples
    cognitive_total := total d.cognitive_samples
    cognitive_mean := mean d.cognitive_samples
    cognitive_median := median d.cognitive_samples
    halstead_vocabulary_total := total d.halstead_vocabulary_samples
    halstead_vocabulary_mean := mean d.halstead_vocabulary_samples
    halstead_vocabulary_median := median d.halstead_vocabulary_samples
    halstead_length_total := total d.halstead_length_samples
    halstead_length_mean := mean d.halstead_length_samples
    halstead_length_median := median d.halstead_length_samples
    halstead_volume_total := total d.halstead_volume_samples
    halstead_volume_mean := mean d.halstead_volume_samples
    halstead_volume_median := median d.halstead_volume_samples
    halstead_difficulty_total := total d.halstead_difficulty_samples
    halstead_difficulty_mean := mean d.halstead_difficulty_samples
    halstead_difficulty_median := median d.halstead_difficulty_samples
    halstead_effort_total := total d.halstead_effort_samples
    halstead_effort_mean := mean d.halstead_effort_samples
    halstead_effort_median := median d.halstead_effort_samples
    comments_count := (d.all_comments.length : ℚ)
    comments_words_total := total (d.all_comments.map TextUnit.words)
    comments_words_mean := mean (d.all_comments.map TextUnit.words)
    comments_words_median := median (d.all_comments.map TextUnit.words)
    comments_chars_total := total (d.all_comments.map TextUnit.chars)
    comments_chars_mean := mean (d.all_comments.map TextUnit.chars)
    comments_chars_median := median (d.all_comments.map TextUnit.chars)
    comments_non_ascii_total := total (d.all_comments.map TextUnit.non_ascii)
    comments_non_ascii_mean := mean (d.all_comments.map TextUnit.non_ascii)
    comments_non_ascii_median := median (d.all_comments.map TextUnit.non_ascii)
    comments_sentences_total := total (d.all_comments.map TextUnit.sentences)
    comments_sentences_mean := mean (d.all_comments.map TextUnit.sentences)
    comments_sentences_median := median (d.all_comments.map TextUnit.sentences)
    comments_misspelled_total := total (d.all_comments.map TextUnit.misspelled)
    comments_misspelled_mean := mean (d.all_comments.map TextUnit.misspelled)
    comments_misspelled_median := median (d.all_comments.map TextUnit.misspelled)
    comments_why_or_what_total := total d.why_or_what_samples
    comments_why_or_what_mean := mean d.why_or_what_samples
    comments_why_or_what_median := median d.why_or_what_samples
    docstrings_count := (d.all_docstrings.length : ℚ)
    docstrings_words_total := total (d.all_docstrings.map TextUnit.words)
    docstrings_words_mean := mean (d.all_docstrings.map TextUnit.words)
    docstrings_words_median := median (d.all_docstrings.map TextUnit.words)
    docstrings_chars_total := total (d.all_docstrings.map TextUnit.chars)
    docstrings_chars_mean := mean (d.all_docstrings.map TextUnit.chars)
    docstrings_chars_median := median (d.all_docstrings.map TextUnit.chars)
    docstrings_non_ascii_total := total (d.all_docstrings.map TextUnit.non_ascii)
    docstrings_non_ascii_mean := mean (d.all_docstrings.map TextUnit.non_ascii)
    docstrings_non_ascii_median := median (d.all_docstrings.map TextUnit.non_ascii)
    docstrings_sentences_total := total (d.all_docstrings.map TextUnit.sentences)
    docstrings_sentences_mean := mean (d.all_docstrings.map TextUnit.sentences)
    docstrings_sentences_median := median (d.all_docstrings.map TextUnit.sentences)
    docstrings_misspelled_total := total (d.all_docstrings.map TextUnit.misspelled)
    docstrings_misspelled_mean := mean (d.all_docstrings.map TextUnit.misspelled)
    docstrings_misspelled_median := median (d.all_docstrings.map TextUnit.misspelled)
    names_count := (d.all_names.length : ℚ)
    names_chars_total := total (d.all_names.map Ident.chars)
    names_chars_mean := mean (d.all_names.map Ident.chars)
    names_chars_median := median (d.all_names.map Ident.chars)
    names_camel_case_ratio := ratioOf Ident.camel_case d.all_names
    names_snake_case_ratio := ratioOf Ident.snake_case d.all_names
    names_pascal_case_ratio := ratioOf Ident.pascal_case d.all_names
    names_private_ratio := ratioOf Ident.private_name d.all_names
    names_endswith_number_ratio := ratioOf Ident.endswith_number d.all_names
    names_simple_ratio := ratioOf Ident.simple d.all_names
    names_ascii_ratio := ratioOf Ident.ascii d.all_names
    n_cells_total := (d.cells.length : ℚ)
    n_cells_code := ((d.cells.countP Cell.isCode : ℕ) : ℚ)
    n_cells_markdown := ((d.cells.countP Cell.isMarkdown : ℕ) : ℚ)
    markdown_words_total := total (d.markdown_cells.map TextUnit.words)
    markdown_chars_total := total (d.markdown_cells.map TextUnit.chars)
    markdown_sentences_total := total (d.markdown_cells.map TextUnit.sentences)
    markdown_misspelled_total := total (d.markdown_cells.map TextUnit.misspelled) }

/-- A scalar value of the record: boolean or numeric (§6). -/
inductive Val where
  | b (x : Bool)
  | q (x : ℚ)
deriving DecidableEq

/-- Field group 1 of the record listing. -/
def Stats.toListPart1 (r : Stats) : List (String × Val) :=
  [("is_repo", Val.b r.is_repo),
   ("n_commits", Val.q r.n_commits),
   ("n_files_total", Val.q r.n_files_total),
   ("n_files_py", Val.q r.n_files_py),
   ("n_files_ipynb", Val.q r.n_files_ipynb),
   ("n_files_md", Val.q r.n_files_md),
   ("radon_loc", Val.q r.radon_loc),
   ("radon_lloc", Val.q r.radon_lloc),
   ("radon_sloc", Val.q r.radon_sloc),
   ("radon_comments", Val.q r.radon_comments),
   ("radon_multi", Val.q r.radon_multi),
   ("radon_blank", Val.q r.radon_blank),
   ("lloc", Val.q r.lloc),
   ("n_char", Val.q r.n_char),
   ("n_functions", Val.q r.n_functions),
   ("n_classes", Val.q r.n_classes)]

/-- Field group 2 of the record listing. -/
def Stats.toListPart2 (r : Stats) : List (String × Val) :=
  [("n_imports", Val.q r.n_imports),
   ("n_imported_modules", Val.q r.n_imported_modules),
   ("mccabe_total", Val.q r.mccabe_total),
   ("mccabe_mean", Val.q r.mccabe_mean),
   ("mccabe_median", Val.q r.mccabe_median),
   ("cognitive_total", Val.q r.cognitive_total),
   ("cognitive_mean", Val.q r.cognitive_mean),
   ("cognitive_median", Val.q r.cognitive_median),
   ("halstead_vocabulary_total", Val.q r.halstead_vocabulary_total),
   ("halstead_vocabulary_mean", Val.q r.halstead_vocabulary_mean),
   ("halstead_vocabulary_median", Val.q r.halstead_vocabulary_median),
   ("halstead_length_total", Val.q r.halstead_length_total),
   ("halstead_length_mean", Val.q r.halstead_length_mean),
   ("halstead_length_median", Val.q r.halstead_length_median),
   ("halstead_volume_total", Val.q r.halstead_volume_total),
   ("halstead_volume_mean", Val.q r.halstead_volume_mean)]

/-- Field group 3 of the record listing. -/
def Stats.toListPart3 (r : Stats) : List (String × Val) :=
  [("halstead_volume_median", Val.q r.halstead_volume_median),
   ("halstead_difficulty_total", Val.q r.halstead_difficulty_total),
   ("halstead_difficulty_mean", Val.q r.halstead_difficulty_mean),
   ("halstead_difficulty_median", Val.q r.halstead_difficulty_median),
   ("halstead_effort_total", Val.q r.halstead_effort_total),
   ("halstead_effort_mean", Val.q r.halstead_effort_mean),
   ("halstead_effort_median", Val.q r.halstead_effort_median),
   ("comments_count", Val.q r.comments_count),
   ("comments_words_total", Val.q r.comments_words_total),
   ("comments_words_mean", Val.q r.comments_words_mean),
   ("comments_words_median", Val.q r.comments_words_median),
   ("comments_chars_total", Val.q r.comments_chars_total),
   ("comments_chars_mean", Val.q r.comments_chars_mean),
   ("comments_chars_median", Val.q r.comments_chars_median),
   ("comments_non_ascii_total", Val.q r.comments_non_ascii_total),
   ("comments_non_ascii_mean", Val.q r.comments_non_ascii_mean)]

/-- Field group 4 of the record listing. -/
def Stats.toListPart4 (r : Stats) : List (String × Val) :=
  [("comments_non_ascii_median", Val.q r.comments_non_ascii_median),
   ("comments_sentences_total", Val.q r.comments_sentences_total),
   ("comments_sentences_mean", Val.q r.comments_sentences_mean),
   ("comments_sentences_median", Val.q r.comments_sentences_median),
   ("comments_misspelled_total", Val.q r.comments_misspelled_total),
   ("comments_misspelled_mean", Val.q r.comments_misspelled_mean),
   ("comments_misspelled_median", Val.q r.comments_misspelled_median),
   ("comments_why_or_what_total", Val.q r.comments_why_or_what_total),
   ("comments_why_or_what_mean", Val.q r.comments_why_or_what_mean),
   ("comments_why_or_what_median", Val.q r.comments_why_or_what_median),
   ("docstrings_count", Val.q r.docstrings_count),
   ("docstrings_words_total", Val.q r.docstrings_words_total),
   ("docstrings_words_mean", Val.q r.docstrings_words_mean),
   ("docstrings_words_median", Val.q r.docstrings_words_median),
   ("docstrings_chars_total", Val.q r.docstrings_chars_total),
   ("docstrings_chars_mean", Val.q r.docstrings_chars_mean)]

/-- Field group 5 of the record listing. -/
def Stats.toListPart5 (r : Stats) : List (String × Val) :=
  [("docstrings_chars_median", Val.q r.docstrings_chars_median),
   ("docstrings_non_ascii_total", Val.q r.docstrings_non_ascii_total),
   ("docstrings_non_ascii_mean", Val.q r.docstrings_non_ascii_mean),
   ("docstrings_non_ascii_median", Val.q r.docstrings_non_ascii_median),
   ("docstrings_sentences_total", Val.q r.docstrings_sentences_total),
   ("docstrings_sentences_mean", Val.q r.docstrings_sentences_mean),
   ("docstrings_sentences_median", Val.q r.docstrings_sentences_median),
   ("docstrings_misspelled_total", Val.q r.docstrings_misspelled_total),
   ("docstrings_misspelled_mean", Val.q r.docstrings_misspelled_mean),
   ("docstrings_misspelled_median", Val.q r.docstrings_misspelled_median),
   ("names_count", Val.q r.names_count),
   ("names_chars_total", Val.q r.names_chars_total),
   ("names_chars_mean", Val.q r.names_chars_mean),
   ("names_chars_median", Val.q r.names_chars_median),
   ("names_camel_case_ratio", Val.q r.names_camel_case_ratio),
   ("names_snake_case_ratio", Val.q r.names_snake_case_ratio)]

/-- Field group 6 of the record listing. -/
def Stats.toListPart6 (r : Stats) : List (String × Val) :=
  [("names_pascal_case_ratio", Val.q r.names_pascal_case_ratio),
   ("names_private_ratio", Val.q r.names_private_ratio),
   ("names_endswith_number_ratio", Val.q r.names_endswith_number_ratio),
   ("names_simple_ratio", Val.q r.names_simple_ratio),
   ("names_ascii_ratio", Val.q r.names_ascii_ratio),
   ("n_cells_total", Val.q r.n_cells_total),
   ("n_cells_code", Val.q r.n_cells_code),
   ("n_cells_markdown", Val.q r.n_cells_markdown),
   ("markdown_words_total", Val.q r.markdown_words_total),
   ("markdown_chars_total", Val.q r.markdown_chars_total),
   ("markdown_sentences_total", Val.q r.markdown_sentences_total),
   ("markdown_misspelled_total", Val.q r.markdown_misspelled_total)]

/-- The record as the ordered mapping from field name to scalar value that
`stats()` prints, in the schema order of the driver notebook's output. -/
def Stats.toList (r : Stats) : List (String × Val) :=
  r.toListPart1 ++ r.toListPart2 ++ r.toListPart3 ++ r.toListPart4 ++
    r.toListPart5 ++ r.toListPart6

/-- The fixed field-name list of the record, in output order, exactly as
enumerated by the driver notebook's printed record. -/
def fieldNames : List String := (Stats.toList
  { is_repo := false, n_commits := 0, n_files_total := 0, n_files_py := 0,
    n_files_ipynb := 0, n_files_md := 0, radon_loc := 0, radon_lloc := 0,
    radon_sloc := 0, radon_comments := 0, radon_multi := 0, radon_blank := 0,
    lloc := 0, n_char := 0, n_functions := 0, n_classes := 0, n_imports := 0,
    n_imported_modules := 0, mccabe_total := 0, mccabe_mean := 0,
    mccabe_median := 0, cognitive_total := 0, cognitive_mean := 0,
    cognitive_median := 0, halstead_vocabulary_total := 0,
    halstead_vocabulary_mean := 0, halstead_vocabulary_median := 0,
    halstead_length_total := 0, halstead_length_mean := 0,
    halstead_length_median := 0, halstead_volume_total := 0,
    halstead_volume_mean := 0, halstead_volume_median := 0,
    halstead_difficulty_total := 0, halstead_difficulty_mean := 0,
    halstead_difficulty_median := 0, halstead_effort_total := 0,
    halstead_effort_mean := 0, halstead_effort_median := 0,
    comments_count := 0, comments_words_total := 0, comments_words_mean := 0,
    comments_words_median := 0, comments_chars_total := 0,
    comments_chars_mean := 0, comments_chars_median := 0,
    comments_non_ascii_total := 0, comments_non_ascii_mean := 0,
    comments_non_ascii_median := 0, comments_sentences_total := 0,
    comments_sentences_mean := 0, comments_sentences_median := 0,
    comments_misspelled_total := 0, comments_misspelled_mean := 0,
    comments_misspelled_median := 0, comments_why_or_what_total := 0,
    comments_why_or_what_mean := 0, comments_why_or_what_median := 0,
    docstrings_count := 0, docstrings_words_total := 0,
    docstrings_words_mean := 0, docstrings_words_median := 0,
    docstrings_chars_total := 0, docstrings_chars_mean := 0,
    docstrings_chars_median := 0, docstrings_non_ascii_total := 0,
    docstrings_non_ascii_mean := 0, docstrings_non_ascii_median := 0,
    docstrings_sentences_total := 0, docstrings_sentences_mean := 0,
    docstrings_sentences_median := 0, docstrings_misspelled_total := 0,
    docstrings_misspelled_mean := 0, docstrings_misspelled_median := 0,
    names_count := 0, names_chars_total := 0, names_chars_mean := 0,
    names_chars_median := 0, names_camel_case_ratio := 0,
    names_snake_case_ratio := 0, names_pascal_case_ratio := 0,
    names_private_ratio := 0, names_endswith_number_ratio := 0,
    names_simple_ratio := 0, names_ascii_ratio := 0, n_cells_total := 0,
    n_cells_code := 0, n_cells_markdown := 0, markdown_words_total := 0,
    markdown_chars_total := 0, markdown_sentences_total := 0,
    markdown_misspelled_total := 0 }).map Prod.fst

/-- Look a field up in the record by name. -/
def getField (r : Stats) (name : String) : Option Val :=
  (r.toList.find? (fun p => p.1 == name)).map Prod.snd

/-- Whether the string ends with the given suffix, computed on the
character lists. -/
def strEndsWith (s suf : String) : Bool :=
  List.isSuffixOf suf.data s.data

/-- Modelled from the spec: the error class (3) of the taxonomy (§7): the
root path does not exist, or exists but is not a directory. -/
inductive StatsError where
  | notFound
  | notADirectory
deriving DecidableEq

/-- Modelled from the spec: the caller-supplied root path (§6): whether it
exists, whether it is a directory, and — when it is — the classified
directory content the walk produces. -/
structure PathInput where
  pathExists : Bool
  isDirectory : Bool
  dir : Dir
deriving DecidableEq

/-- Modelled from the spec: the full `stats()` invocation (§7): a
configuration/input error (root missing or not a directory) is fatal and
surfaced before any extraction; otherwise the whole pipeline runs and a
complete record is produced. -/
def stats (inp : PathInput) : Except StatsError Stats :=
  if inp.pathExists = false then .error .notFound
  else if inp.isDirectory = false then .error .notADirectory
  else .ok inp.dir.stats

/-- The sample-aggregated metric groups of the record, each paired with
the project-wide sample pool it reduces: the groups whose schema exposes
the `_total`, `_mean` and `_median` fields. -/
def aggGroups (d : Dir) : List (String × List ℚ) :=
  [("mccabe", d.mccabe_samples),
   ("cognitive", d.cognitive_samples),
   ("halstead_vocabulary", d.halstead_vocabulary_samples),
   ("halstead_length", d.halstead_length_samples),
   ("halstead_volume", d.halstead_volume_samples),
   ("halstead_difficulty", d.halstead_difficulty_samples),
   ("halstead_effort", d.halstead_effort_samples),
   ("comments_words", d.all_comments.map TextUnit.words),
   ("comments_chars", d.all_comments.map TextUnit.chars),
   ("comments_non_ascii", d.all_comments.map TextUnit.non_ascii),
   ("comments_sentences", d.all_comments.map TextUnit.sentences),
   ("comments_misspelled", d.all_comments.map TextUnit.misspelled),
   ("comments_why_or_what", d.why_or_what_samples),
   ("docstrings_words", d.all_docstrings.map TextUnit.words),
   ("docstrings_chars", d.all_docstrings.map TextUnit.chars),
   ("docstrings_non_ascii", d.all_docstrings.map TextUnit.non_ascii),
   ("docstrings_sentences", d.all_docstrings.map TextUnit.sentences),
   ("docstrings_misspelled", d.all_docstrings.map TextUnit.misspelled),
   ("names_chars", d.all_names.map Ident.chars)]

/-- Adding one more discovered `.py` file to a classified directory. -/
def Dir.addFile (d : Dir) (f : PyFile) : Dir :=
  { d with py_files := f :: d.py_files }

/-- A markdown cell's text unit used by the concrete cell-count example. -/
def mdUnit : TextUnit := ⟨0, 0, 0, 0, 0, false⟩

/-- A notebook with thirteen cells — six code, six markdown, one of
another kind — mirroring the cell tallies of the record observed in the
driver notebook (`n_cells_total` 13, `n_cells_code` 6,
`n_cells_markdown` 6). -/
def obsNotebook : Notebook :=
  ⟨some [Cell.markdown mdUnit, Cell.code none, Cell.markdown mdUnit,
         Cell.code none, Cell.markdown mdUnit, Cell.code none,
         Cell.markdown mdUnit, Cell.code none, Cell.markdown mdUnit,
         Cell.code none, Cell.markdown mdUnit, Cell.code none, Cell.other]⟩

/-- A directory holding just `obsNotebook`. -/
def obsDir : Dir :=
  { py_files := [], ipynb_files := [obsNotebook], n_md := 0, n_other := 0,
    is_repo := false, n_commits := 0 }

/-- A parsed Python unit that defines one function with the given
cyclomatic-complexity samples and nothing else. -/
def pyUnitOfMccabe (m : List ℚ) : PyContent :=
  { radon_loc := 0, radon_lloc := 0, radon_sloc := 0, radon_comments := 0,
    radon_multi := 0, radon_blank := 0, lloc := 0, n_char := 0,
    n_functions := 1, n_classes := 0, n_imports := 0, n_imported_modules := 0,
    mccabe := m, cognitive := [], halstead_vocabulary := [],
    halstead_length := [], halstead_volume := [], halstead_difficulty := [],
    halstead_effort := [], comments := [], docstrings := [], names := [] }

/-- A project with one standalone `.py` file whose single function has
cyclomatic complexity 3 and one one-cell notebook whose code cell defines
a single function of cyclomatic complexity 3. -/
def pooledDir : Dir :=
  { py_files := [⟨some (pyUnitOfMccabe [3])⟩],
    ipynb_files := [⟨some [Cell.code (some (pyUnitOfMccabe [3]))]⟩],
    n_md := 0, n_other := 0, is_repo := false, n_commits := 0 }

/-- C1 counterexample: the claim that every non-ratio raw metric exposes
all three derived fields in every metric group, including the
markdown-cell group, fails at the markdown group: the schema contains
`markdown_words_total` but neither `markdown_words_mean` nor
`markdown_words_median`, and looking the missing fields up in the record
of a concrete directory yields nothing. -/
theorem markdown_group_lacks_mean_median :
    "markdown_words_total" ∈ fieldNames ∧
    "markdown_words_mean" ∉ fieldNames ∧
    "markdown_words_median" ∉ fieldNames ∧
    getField Dir.empty.stats "markdown_words_mean" = none ∧
    getField Dir.empty.stats "markdown_words_median" = none := by
  decide

set_option maxHeartbeats 4000000 in
/-- C1 (amended): for every raw metric name in the sample-aggregated
groups (cyclomatic, cognitive, the five Halstead metrics, the comment and
docstring text metrics, identifier character length), the record exposes
exactly the three derived fields, `_total` the sum of the samples,
`_mean` their arithmetic mean (0 when empty) and `_median` their
statistical median (0 when empty); the markdown-cell group instead
exposes only `_total` fields (sums over the markdown cells), with no
`_mean` or `_median` field in the schema. -/
theorem aggregation_rule_amended (d : Dir) :
    (∀ p ∈ aggGroups d,
       getField d.stats (p.1 ++ "_total") = some (Val.q (total p.2)) ∧
       getField d.stats (p.1 ++ "_mean") = some (Val.q (mean p.2)) ∧
       getField d.stats (p.1 ++ "_median") = some (Val.q (median p.2))) ∧
    getField d.stats "markdown_words_total" =
      some (Val.q (total (d.markdown_cells.map TextUnit.words))) ∧
    getField d.stats "markdown_chars_total" =
      some (Val.q (total (d.markdown_cells.map TextUnit.chars))) ∧
    getField d.stats "markdown_sentences_total" =
      some (Val.q (total (d.markdown_cells.map TextUnit.sentences))) ∧
    getField d.stats "markdown_misspelled_total" =
      some (Val.q (total (d.markdown_cells.map TextUnit.misspelled))) ∧
    "markdown_words_mean" ∉ fieldNames ∧ "markdown_words_median" ∉ fieldNames ∧
    "markdown_chars_mean" ∉ fieldNames ∧ "markdown_chars_median" ∉ fieldNames ∧
    "markdown_sentences_mean" ∉ fieldNames ∧
    "markdown_sentences_median" ∉ fieldNames ∧
    "markdown_misspelled_mean" ∉ fieldNames ∧
    "markdown_misspelled_median" ∉ fieldNames := by
  refine ⟨?_, rfl, rfl, rfl, rfl, by decide, by decide, by decide, by decide,
    by decide, by decide, by decide, by decide⟩
  intro p hp
  simp only [aggGroups, List.mem_cons, List.not_mem_nil, or_false] at hp
  rcases hp with rfl|rfl|rfl|rfl|rfl|rfl|rfl|rfl|rfl|rfl|rfl|rfl|rfl|rfl|rfl|rfl|rfl|rfl|rfl
  all_goals exact ⟨rfl, rfl, rfl⟩

/-- Witness for the amended aggregation rule at a concrete input: the
cyclomatic group of the pooled example project. -/
theorem aggregation_rule_amended_witness :
    getField pooledDir.stats ("mccabe" ++ "_total") =
      some (Val.q (total pooledDir.mccabe_samples)) ∧
    getField pooledDir.stats ("mccabe" ++ "_mean") =
      some (Val.q (mean pooledDir.mccabe_samples)) ∧
    getField pooledDir.stats ("mccabe" ++ "_median") =
      some (Val.q (median pooledDir.mccabe_samples)) :=
  (aggregation_rule_amended pooledDir).1 ("mccabe", pooledDir.mccabe_samples)
    (List.mem_cons_self _ _)

/-- C2: for the directory containing zero files, every `_total` field of
the record is 0, every `_mean` and `_median` field is 0, `n_files_total`
is 0, `is_repo` is `false`, `n_commits` is 0, and no field of the fixed
schema is missing. -/
theorem empty_dir_record_all_zero :
    (∀ p ∈ Dir.empty.stats.toList,
       (strEndsWith p.1 "_total" = true → p.2 = Val.q 0) ∧
       (strEndsWith p.1 "_mean" = true → p.2 = Val.q 0) ∧
       (strEndsWith p.1 "_median" = true → p.2 = Val.q 0)) ∧
    Dir.empty.stats.n_files_total = 0 ∧
    Dir.empty.stats.is_repo = false ∧
    Dir.empty.stats.n_commits = 0 ∧
    Dir.empty.stats.toList.map Prod.fst = fieldNames := by
  decide

/-- C3: adding one unparsable `.py` file to any project increases
`n_files_py` and `n_files_total` by one, leaves every
structural-complexity (cyclomatic, cognitive) total/mean/median and every
Halstead `_total` field unchanged, and the invocation still completes
with a record rather than an error. -/
theorem add_invalid_py_file (d : Dir) (f : PyFile) (h : f.parse = none) :
    (d.addFile f).stats.n_files_py = d.stats.n_files_py + 1 ∧
    (d.addFile f).stats.n_files_total = d.stats.n_files_total + 1 ∧
    (d.addFile f).stats.mccabe_total = d.stats.mccabe_total ∧
    (d.addFile f).stats.mccabe_mean = d.stats.mccabe_mean ∧
    (d.addFile f).stats.mccabe_median = d.stats.mccabe_median ∧
    (d.addFile f).stats.cognitive_total = d.stats.cognitive_total ∧
    (d.addFile f).stats.cognitive_mean = d.stats.cognitive_mean ∧
    (d.addFile f).stats.cognitive_median = d.stats.cognitive_median ∧
    (d.addFile f).stats.halstead_vocabulary_total = d.stats.halstead_vocabulary_total ∧
    (d.addFile f).stats.halstead_length_total = d.stats.halstead_length_total ∧
    (d.addFile f).stats.halstead_volume_total = d.stats.halstead_volume_total ∧
    (d.addFile f).stats.halstead_difficulty_total = d.stats.halstead_difficulty_total ∧
    (d.addFile f).stats.halstead_effort_total = d.stats.halstead_effort_total ∧
    stats ⟨true, true, d.addFile f⟩ = .ok (d.addFile f).stats := by
  have hc : (d.addFile f).py_contents = d.py_contents := by
    simp [Dir.addFile, Dir.py_contents, Dir.cells, List.filterMap_cons, h]
  have hm1 : (d.addFile f).mccabe_samples = d.mccabe_samples := by
    unfold Dir.mccabe_samples; rw [hc]
  have hm2 : (d.addFile f).cognitive_samples = d.cognitive_samples := by
    unfold Dir.cognitive_samples; rw [hc]
  have hm3 : (d.addFile f).halstead_vocabulary_samples = d.halstead_vocabulary_samples := by
    unfold Dir.halstead_vocabulary_samples; rw [hc]
  have hm4 : (d.addFile f).halstead_length_samples = d.halstead_length_samples := by
    unfold Dir.halstead_length_samples; rw [hc]
  have hm5 : (d.addFile f).halstead_volume_samples = d.halstead_volume_samples := by
    unfold Dir.halstead_volume_samples; rw [hc]
  have hm6 : (d.addFile f).halstead_difficulty_samples = d.halstead_difficulty_samples := by
    unfold Dir.halstead_difficulty_samples; rw [hc]
  have hm7 : (d.addFile f).halstead_effort_samples = d.halstead_effort_samples := by
    unfold Dir.halstead_effort_samples; rw [hc]
  refine ⟨?_, ?_, ?_, ?_, ?_, ?_, ?_, ?_, ?_, ?_, ?_, ?_, ?_, rfl⟩
  · simp [Dir.stats, Dir.addFile]
  · simp only [Dir.stats, Dir.addFile, List.length_cons]
    push_cast
    ring
  all_goals simp only [Dir.stats, hm1, hm2, hm3, hm4, hm5, hm6, hm7]

/-- Witness for the invalid-file frame property: adding one unparsable
`.py` file to the empty project. -/
theorem add_invalid_py_file_witness :
    (Dir.empty.addFile ⟨none⟩).stats.n_files_py = Dir.empty.stats.n_files_py + 1 ∧
    (Dir.empty.addFile ⟨none⟩).stats.n_files_total = Dir.empty.stats.n_files_total + 1 ∧
    (Dir.empty.addFile ⟨none⟩).stats.mccabe_total = Dir.empty.stats.mccabe_total ∧
    (Dir.empty.addFile ⟨none⟩).stats.mccabe_mean = Dir.empty.stats.mccabe_mean ∧
    (Dir.empty.addFile ⟨none⟩).stats.mccabe_median = Dir.empty.stats.mccabe_median ∧
    (Dir.empty.addFile ⟨none⟩).stats.cognitive_total = Dir.empty.stats.cognitive_total ∧
    (Dir.empty.addFile ⟨none⟩).stats.cognitive_mean = Dir.empty.stats.cognitive_mean ∧
    (Dir.empty.addFile ⟨none⟩).stats.cognitive_median = Dir.empty.stats.cognitive_median ∧
    (Dir.empty.addFile ⟨none⟩).stats.halstead_vocabulary_total = Dir.empty.stats.halstead_vocabulary_total ∧
    (Dir.empty.addFile ⟨none⟩).stats.halstead_length_total = Dir.empty.stats.halstead_length_total ∧
    (Dir.empty.addFile ⟨none⟩).stats.halstead_volume_total = Dir.empty.stats.halstead_volume_total ∧
    (Dir.empty.addFile ⟨none⟩).stats.halstead_difficulty_total = Dir.empty.stats.halstead_difficulty_total ∧
    (Dir.empty.addFile ⟨none⟩).stats.halstead_effort_total = Dir.empty.stats.halstead_effort_total ∧
    stats ⟨true, true, Dir.empty.addFile ⟨none⟩⟩ = .ok (Dir.empty.addFile ⟨none⟩).stats :=
  add_invalid_py_file Dir.empty ⟨none⟩ rfl

/-- C4: notebook code-cell metrics pool with standalone `.py` metrics:
for the project with one one-cell notebook whose cell defines a function
of cyclomatic complexity 3 and one `.py` file with a function of
cyclomatic complexity 3, the pooled sample list is `[3, 3]` and the
record's complexity total is 6. -/
theorem notebook_cells_pool_with_py_files :
    pooledDir.mccabe_samples = [3, 3] ∧ pooledDir.stats.mccabe_total = 6 := by
  have h : pooledDir.mccabe_samples = [3, 3] := rfl
  refine ⟨h, ?_⟩
  show total pooledDir.mccabe_samples = 6
  rw [h]
  norm_num [total]

/-- C5: `stats()` is deterministic — two invocations of the full pipeline
on the same unchanged input produce identical output records. -/
theorem stats_deterministic (inp1 inp2 : PathInput) (h : inp1 = inp2) :
    stats inp1 = stats inp2 := by
  rw [h]

/-- Witness for determinism at a concrete input. -/
theorem stats_deterministic_witness :
    stats ⟨true, true, Dir.empty⟩ = stats ⟨true, true, Dir.empty⟩ :=
  stats_deterministic ⟨true, true, Dir.empty⟩ ⟨true, true, Dir.empty⟩ rfl

/-- C6: the `_total` reduction equals the sum of the samples, and the
`_total`, `_mean` and `_median` reductions applied by the Aggregator to
every metric group are invariant under any permutation of the per-sample
sequence. -/
theorem aggregation_perm_invariant (xs ys : List ℚ) (h : xs.Perm ys) :
    total xs = xs.sum ∧ total xs = total ys ∧ mean xs = mean ys ∧
    median xs = median ys := by
  have hsort : List.insertionSort (· ≤ ·) xs = List.insertionSort (· ≤ ·) ys :=
    List.eq_of_perm_of_sorted
      ((List.perm_insertionSort _ xs).trans (h.trans (List.perm_insertionSort _ ys).symm))
      (List.sorted_insertionSort _ xs) (List.sorted_insertionSort _ ys)
  refine ⟨rfl, h.sum_eq, ?_, ?_⟩
  · simp [mean, h.sum_eq, h.length_eq]
  · unfold median
    rw [hsort]

/-- Witness for order-invariance of the reductions at a concrete
permutation. -/
theorem aggregation_perm_invariant_witness :
    total ([1, 2, 3, 4] : List ℚ) = ([1, 2, 3, 4] : List ℚ).sum ∧
    total ([1, 2, 3, 4] : List ℚ) = total [4, 1, 3, 2] ∧
    mean ([1, 2, 3, 4] : List ℚ) = mean [4, 1, 3, 2] ∧
    median ([1, 2, 3, 4] : List ℚ) = median [4, 1, 3, 2] :=
  aggregation_perm_invariant [1, 2, 3, 4] [4, 1, 3, 2] (by decide)

/-- C7: for a file with zero identifiers, every per-file
naming-convention ratio — snake_case, camelCase, PascalCase, private,
simple, ASCII, and indeed the ratio of any flag — is 0: the
zero-denominator branch yields 0 rather than a division error or an
undefined value. -/
theorem zero_identifier_ratios (c : PyContent) (h : c.names = []) :
    ratioOf Ident.snake_case c.names = 0 ∧ ratioOf Ident.camel_case c.names = 0 ∧
    ratioOf Ident.pascal_case c.names = 0 ∧ ratioOf Ident.private_name c.names = 0 ∧
    ratioOf Ident.simple c.names = 0 ∧ ratioOf Ident.ascii c.names = 0 ∧
    ∀ flag : Ident → Bool, ratioOf flag c.names = 0 := by
  simp [ratioOf, h]

/-- Witness for the zero-identifier ratios at a concrete file. -/
theorem zero_identifier_ratios_witness :
    ratioOf Ident.snake_case (pyUnitOfMccabe []).names = 0 ∧
    ratioOf Ident.camel_case (pyUnitOfMccabe []).names = 0 ∧
    ratioOf Ident.pascal_case (pyUnitOfMccabe []).names = 0 ∧
    ratioOf Ident.private_name (pyUnitOfMccabe []).names = 0 ∧
    ratioOf Ident.simple (pyUnitOfMccabe []).names = 0 ∧
    ratioOf Ident.ascii (pyUnitOfMccabe []).names = 0 ∧
    ∀ flag : Ident → Bool, ratioOf flag (pyUnitOfMccabe []).names = 0 :=
  zero_identifier_ratios (pyUnitOfMccabe []) rfl

/-- C8: the invocation fails exactly when the root path does not exist or
is not a directory, and for every existing directory it returns the
complete record of the fixed schema, with no missing field. -/
theorem stats_raises_iff (inp : PathInput) :
    ((∃ e, stats inp = .error e) ↔
      (inp.pathExists = false ∨ inp.isDirectory = false)) ∧
    (∀ r, stats inp = .ok r →
      r = inp.dir.stats ∧ r.toList.map Prod.fst = fieldNames) := by
  obtain ⟨pe, di, d⟩ := inp
  cases pe <;> cases di <;> simp [stats]
  rfl

/-- Witness for the error contract: a missing root is rejected and a
valid root yields the full record. -/
theorem stats_raises_iff_witness :
    (∃ e, stats ⟨false, true, Dir.empty⟩ = .error e) ∧
    (Dir.empty.stats = Dir.empty.stats ∧
      Dir.empty.stats.toList.map Prod.fst = fieldNames) :=
  ⟨(stats_raises_iff ⟨false, true, Dir.empty⟩).1.mpr (Or.inl rfl),
   (stats_raises_iff ⟨true, true, Dir.empty⟩).2 Dir.empty.stats rfl⟩

/-- C9: `n_cells_total` counts cells of every kind, so the code and
markdown cell counts sum to at most the total for every project, and the
inequality can be strict: a directory mirroring the observed record has
6 code cells, 6 markdown cells and 13 cells in total. -/
theorem cells_total_counts_all_kinds :
    (∀ d : Dir, d.stats.n_cells_code + d.stats.n_cells_markdown ≤ d.stats.n_cells_total) ∧
    obsDir.stats.n_cells_code = 6 ∧ obsDir.stats.n_cells_markdown = 6 ∧
    obsDir.stats.n_cells_total = 13 ∧
    obsDir.stats.n_cells_code + obsDir.stats.n_cells_markdown < obsDir.stats.n_cells_total := by
  refine ⟨?_, ?_, ?_, ?_, ?_⟩
  · intro d
    have key : ∀ l : List Cell, l.countP Cell.isCode + l.countP Cell.isMarkdown ≤ l.length := by
      intro l
      induction l with
      | nil => simp
      | cons c t ih =>
        cases c <;> simp [List.countP_cons, Cell.isCode, Cell.isMarkdown] <;> omega
    have := key d.cells
    simp only [Dir.stats]
    exact_mod_cast this
  · norm_num [Dir.stats, obsDir, Dir.cells, obsNotebook, List.countP,
      List.countP.go, Cell.isCode, Cell.isMarkdown]
  · norm_num [Dir.stats, obsDir, Dir.cells, obsNotebook, List.countP,
      List.countP.go, Cell.isCode, Cell.isMarkdown]
  · norm_num [Dir.stats, obsDir, Dir.cells, obsNotebook, List.filterMap_cons]
  · norm_num [Dir.stats, obsDir, Dir.cells, obsNotebook, List.filterMap_cons,
      List.countP, List.countP.go, Cell.isCode, Cell.isMarkdown]

/-- C10 counterexample: the record of a concrete directory has 92 fields,
not 91 as claimed. -/
theorem record_has_92_fields :
    Dir.empty.stats.toList.length = 92 ∧ Dir.empty.stats.toList.length ≠ 91 := by
  decide

/-- C10 (amended): for every input directory the record has exactly 92
fields, with a fixed name list independent of project content, and that
list includes `names_endswith_number_ratio`, an identifier-classification
ratio beyond the six flags the spec enumerates. -/
theorem schema_fixed_92 :
    (∀ d : Dir, d.stats.toList.map Prod.fst = fieldNames) ∧
    fieldNames.length = 92 ∧ "names_endswith_number_ratio" ∈ fieldNames :=
  ⟨fun _ => rfl, by decide, by decide⟩

end Codelytics
